import Mathlib

/-!
Shallow embedding of the service worker of the Simple PWA application
(file service-worker.js): the cache data model, the install, activate,
fetch, message and notificationclick handlers, and theorems about them.

Conventions of the embedding:
* A captured response is a record of status, status text, content type and
  body; a cache generation is an association list from URL to response;
  the cache storage is an association list from generation name to cache.
* The network is a function from request (or URL) to `Option Response`;
  `none` models a network error (a rejected fetch), `some r` a response
  that arrived, possibly with a non-successful status.
* Handlers are pure functions returning the response decision together
  with the cache storage after the handler and bookkeeping flags.
-/

/-- A captured response snapshot: status code, status text, content type
and body, as stored by the Cache API and produced by `new Response`. -/
structure Response where
  status : Nat
  statusText : String
  contentType : String
  body : String
  deriving Repr, DecidableEq

/-- A request as seen by the fetch handler: method, origin of its URL,
the URL itself, and the destination kind (document, image, script, ...). -/
structure Request where
  method : String
  origin : String
  url : String
  destination : String
  deriving Repr, DecidableEq

/-- One cache generation: an association list from URL to captured response. -/
abbrev Cache := List (String × Response)

/-- The whole cache storage: an association list from generation name to cache. -/
abbrev CacheStorage := List (String × Cache)

/-- `CACHE_VERSION` from service-worker.js. -/
def CACHE_VERSION : String := "v1"

/-- `CACHE_NAME` from service-worker.js: the name of the current generation. -/
def CACHE_NAME : String := "simple-pwa-" ++ CACHE_VERSION

/-- `ASSETS_TO_CACHE` from service-worker.js: the asset manifest. -/
def ASSETS_TO_CACHE : List String :=
  ["./", "./index.html", "./style.css", "./app.js", "./manifest.json",
   "./assets/icon-192.png", "./assets/icon-512.png",
   "./assets/icon-maskable-192.png", "./assets/icon-maskable-512.png"]

/-- Look a URL up in one cache generation (`cache.match`). -/
def cacheMatch (c : Cache) (url : String) : Option Response :=
  (c.find? (fun e => e.1 = url)).map (fun e => e.2)

/-- Store a response under a URL in one generation (`cache.put`):
the previous entry for that URL, if any, is replaced atomically. -/
def cachePut (c : Cache) (url : String) (r : Response) : Cache :=
  (url, r) :: c.filter (fun e => e.1 ≠ url)

/-- Look a URL up across all cache generations in storage order
(`caches.match`). -/
def storageMatch : CacheStorage → String → Option Response
  | [], _ => none
  | (_, c) :: rest, url =>
    match cacheMatch c url with
    | some r => some r
    | none => storageMatch rest url

/-- The cache generation registered under a name, if any. -/
def storageGet (s : CacheStorage) (name : String) : Option Cache :=
  (s.find? (fun e => e.1 = name)).map (fun e => e.2)

/-- `caches.open`: the generation registered under the name, or a fresh
empty one. -/
def storageOpen (s : CacheStorage) (name : String) : Cache :=
  (storageGet s name).getD []

/-- Register a cache generation under a name, replacing an existing one. -/
def storageSet : CacheStorage → String → Cache → CacheStorage
  | [], name, c => [(name, c)]
  | e :: rest, name, c =>
    if e.1 = name then (name, c) :: rest else e :: storageSet rest name c

/-- `caches.open(name)` followed by `cache.put(url, r)`. -/
def storagePut (s : CacheStorage) (name url : String) (r : Response) : CacheStorage :=
  storageSet s name (cachePut (storageOpen s name) url r)

/-- Whether a response has an ok status (the 2xx range), as used by the
Cache API when `cache.addAll` validates the fetched responses. -/
def Response.ok (r : Response) : Bool := 200 ≤ r.status && r.status ≤ 299

/-- What `cache.addAll` does for a single manifest entry: fetch it, and
treat both a network error and a non-ok status as a failure of the entry. -/
def fetchForAddAll (net : String → Option Response) (url : String) : Option Response :=
  match net url with
  | some r => if r.ok then some r else none
  | none => none

/-- `cache.addAll(urls)`: fetch every entry; the batch is atomic, so when
every fetch succeeds all pairs are written and the operation succeeds,
and when any single fetch fails nothing is written and the whole
operation rejects. Returns the cache afterwards and the success flag. -/
def cacheAddAll (net : String → Option Response) (c : Cache) (urls : List String) :
    Cache × Bool :=
  match urls.mapM (fetchForAddAll net) with
  | some rs => ((urls.zip rs).foldl (fun acc e => cachePut acc e.1 e.2) c, true)
  | none => (c, false)

/-- Result of running the install handler. -/
structure InstallOutcome where
  storageAfter : CacheStorage
  installSucceeded : Bool
  skipWaitingCalled : Bool
  deriving Repr, DecidableEq

/-- The install handler of service-worker.js: open `CACHE_NAME`, run
`cache.addAll(ASSETS_TO_CACHE)` with a catch that swallows its rejection
(so the extended install event always settles successfully), and call
`self.skipWaiting()` unconditionally. -/
def installHandler (net : String → Option Response) (s : CacheStorage) : InstallOutcome :=
  let opened := storageOpen s CACHE_NAME
  let added := cacheAddAll net opened ASSETS_TO_CACHE
  { storageAfter := storageSet s CACHE_NAME added.1
    installSucceeded := true
    skipWaitingCalled := true }

/-- The cache effect of the activate handler of service-worker.js:
`caches.keys()` and then `caches.delete` on every name other than
`CACHE_NAME`, so exactly the generations named `CACHE_NAME` remain. -/
def activateHandler (s : CacheStorage) : CacheStorage :=
  s.filter (fun e => e.1 = CACHE_NAME)

/-- Decision of the fetch handler for one request. -/
inductive FetchResult where
  | passThrough : FetchResult
  | respond : Response → FetchResult
  | respondUndefined : FetchResult
  deriving Repr, DecidableEq

/-- Result of running the fetch handler: the decision, the cache storage
afterwards, and whether a network fetch was attempted. -/
structure FetchOutcome where
  result : FetchResult
  storageAfter : CacheStorage
  networkAttempted : Bool
  deriving Repr, DecidableEq

/-- The synthetic offline response built by the fetch handler:
`new Response` with status 503, statusText Service Unavailable and a
plain-text body. -/
def offlineResponse : Response :=
  { status := 503
    statusText := "Service Unavailable"
    contentType := "text/plain"
    body := "Offline - Resource not available" }

/-- The fetch handler of service-worker.js. Non-GET requests and requests
whose origin differs from the worker origin are passed through. Otherwise
cache first: a hit is answered from the cache with no network fetch; on a
miss the network is fetched, a status-200 response is additionally stored
into `CACHE_NAME`, and a network error yields the cached `./index.html`
for document requests (or undefined when that is not cached) and the
synthetic 503 offline response for every other request. -/
def fetchHandler (selfOrigin : String) (net : Request → Option Response)
    (s : CacheStorage) (req : Request) : FetchOutcome :=
  if req.method ≠ "GET" then
    { result := FetchResult.passThrough, storageAfter := s, networkAttempted := false }
  else if req.origin ≠ selfOrigin then
    { result := FetchResult.passThrough, storageAfter := s, networkAttempted := false }
  else
    match storageMatch s req.url with
    | some cached =>
      { result := FetchResult.respond cached, storageAfter := s, networkAttempted := false }
    | none =>
      match net req with
      | some networkResponse =>
        if networkResponse.status = 200 then
          { result := FetchResult.respond networkResponse
            storageAfter := storagePut s CACHE_NAME req.url networkResponse
            networkAttempted := true }
        else
          { result := FetchResult.respond networkResponse
            storageAfter := s
            networkAttempted := true }
      | none =>
        if req.destination = "document" then
          match storageMatch s "./index.html" with
          | some shell =>
            { result := FetchResult.respond shell, storageAfter := s, networkAttempted := true }
          | none =>
            { result := FetchResult.respondUndefined, storageAfter := s, networkAttempted := true }
        else
          { result := FetchResult.respond offlineResponse
            storageAfter := s
            networkAttempted := true }

/-- Payload attached to a notification: the optional `data` object holds an
optional `url` field. -/
structure NotifData where
  url : Option String
  deriving Repr, DecidableEq

/-- A client registration as seen by the notificationclick handler: an
opaque identifier and whether `focus` is available on it. -/
structure NotifClient where
  id : Nat
  focusable : Bool
  deriving Repr, DecidableEq

/-- A message posted over the client messaging channel. -/
structure SWMessage where
  type : String
  url : String
  deriving Repr, DecidableEq

/-- Result of running the notificationclick handler: the messages posted
(client identifier and message), which client was focused, which URL a new
window was opened on, and whether the notification was closed. -/
structure ClickResult where
  messages : List (Nat × SWMessage)
  focusedClient : Option Nat
  openedWindow : Option String
  closedNotification : Bool
  deriving Repr, DecidableEq

/-- The target URL computed by the notificationclick handler:
`(event.notification.data && event.notification.data.url) || fallback`.
JavaScript `||` takes the fallback whenever the left side is falsy, which
for strings includes the empty string, not only an absent field. -/
def notifTargetUrl (data : Option NotifData) : String :=
  match data with
  | some d =>
    match d.url with
    | some u => if u = "" then "./?notification=test" else u
    | none => "./?notification=test"
  | none => "./?notification=test"

/-- The notificationclick handler of service-worker.js: close the
notification, compute the target URL, then walk the client list and, at
the first client exposing `focus`, post one NOTIFICATION_CLICKED message
to it and focus it; when no such client exists, open a new window on the
target URL. -/
def notificationClick (data : Option NotifData) (clientList : List NotifClient) :
    ClickResult :=
  let targetUrl := notifTargetUrl data
  match clientList.find? (fun c => c.focusable) with
  | some c =>
    { messages := [(c.id, { type := "NOTIFICATION_CLICKED", url := targetUrl })]
      focusedClient := some c.id
      openedWindow := none
      closedNotification := true }
  | none =>
    { messages := []
      focusedClient := none
      openedWindow := some targetUrl
      closedNotification := true }

/-- The message handler of service-worker.js: `self.skipWaiting()` is
called exactly when the message data carries type SKIP_WAITING. -/
def messageTriggersSkipWaiting (data : Option SWMessage) : Bool :=
  match data with
  | some d => d.type = "SKIP_WAITING"
  | none => false

/-- Observable events of one run of the activate handler, in temporal
order of occurrence. -/
inductive ActEvent where
  | keysRequested : ActEvent
  | claimCalled : ActEvent
  | keysResolved : ActEvent
  | cacheDeleted : String → ActEvent
  deriving Repr, DecidableEq

/-- Temporal trace of the activate handler of service-worker.js under the
JavaScript event-loop semantics. The handler body runs synchronously:
`caches.keys()` is requested, its `.then` callback is registered inside
`event.waitUntil`, and `self.clients.claim()` is invoked before the
handler returns. Only afterwards, on the microtask queue, does the keys
promise resolve, and only then do the deletions of the generations not
named `CACHE_NAME` run. `claim` is not chained after the deletion
promise, so it occurs before any deletion settles. -/
def activateTrace (existing : List String) : List ActEvent :=
  [ActEvent.keysRequested, ActEvent.claimCalled, ActEvent.keysResolved]
    ++ (existing.filter (fun n => n ≠ CACHE_NAME)).map ActEvent.cacheDeleted

/-- Position of the first occurrence of an event in a trace (the length
of the trace when the event does not occur). -/
def eventIndex : List ActEvent → ActEvent → Nat
  | [], _ => 0
  | x :: xs, e => if x = e then 0 else eventIndex xs e + 1

/-! Concrete fixtures used by witnesses and counterexamples. -/

/-- A successful captured response used in concrete scenarios. -/
def okHtmlResponse : Response :=
  { status := 200, statusText := "OK", contentType := "text/html", body := "shell" }

/-- A non-successful (404) response used in concrete scenarios. -/
def notFoundResponse : Response :=
  { status := 404, statusText := "Not Found", contentType := "text/plain", body := "missing" }

/-- The origin of the application in concrete scenarios. -/
def appOrigin : String := "https://app.example"

/-- A same-origin GET request for a script asset. -/
def reqAppJs : Request :=
  { method := "GET", origin := appOrigin, url := "./app.js", destination := "script" }

/-- A same-origin GET request whose destination is a top-level document. -/
def reqDoc : Request :=
  { method := "GET", origin := appOrigin, url := "./gallery.html", destination := "document" }

/-- A same-origin GET request for an image asset. -/
def reqImage : Request :=
  { method := "GET", origin := appOrigin, url := "./assets/photo.png", destination := "image" }

/-- A same-origin POST request (not a pure retrieval). -/
def reqPost : Request :=
  { method := "POST", origin := appOrigin, url := "./api/upload", destination := "" }

/-- A network on which every URL succeeds except `./style.css`, which
fails with a network error (manifest entry number 3). -/
def netFailingOnStyle : String → Option Response :=
  fun url => if url = "./style.css" then none else some okHtmlResponse

/-- C1: for every retrieval request whose identity has a Cached Response
Record (the fetch handler consults `caches.match`, which after activation
holds exactly the current Cache Generation), the fetch handler returns
that cached record, attempts no network fetch, and leaves the cache
storage unchanged — for every network function, reachable or not, and
regardless of staleness of the record. -/
theorem fetch_cache_first (selfOrigin : String) (net : Request → Option Response)
    (s : CacheStorage) (req : Request) (r : Response)
    (hm : req.method = "GET") (ho : req.origin = selfOrigin)
    (hc : storageMatch s req.url = some r) :
    fetchHandler selfOrigin net s req =
      { result := FetchResult.respond r, storageAfter := s, networkAttempted := false } := by
  simp [fetchHandler, hm, ho, hc]

/-- Witness for C1 at a concrete cached request. -/
theorem fetch_cache_first_witness :
    fetchHandler appOrigin (fun _ => some notFoundResponse)
      [(CACHE_NAME, [("./app.js", okHtmlResponse)])] reqAppJs =
      { result := FetchResult.respond okHtmlResponse
        storageAfter := [(CACHE_NAME, [("./app.js", okHtmlResponse)])]
        networkAttempted := false } :=
  fetch_cache_first appOrigin (fun _ => some notFoundResponse)
    [(CACHE_NAME, [("./app.js", okHtmlResponse)])] reqAppJs okHtmlResponse
    rfl rfl (by decide)

/-- C4: a request that is non-GET or cross-origin is passed through
untouched: no cache lookup answers it, the cache storage is unchanged,
and no network fetch is attempted by the handler. -/
theorem fetch_pass_through (selfOrigin : String) (net : Request → Option Response)
    (s : CacheStorage) (req : Request)
    (h : req.method ≠ "GET" ∨ req.origin ≠ selfOrigin) :
    fetchHandler selfOrigin net s req =
      { result := FetchResult.passThrough, storageAfter := s, networkAttempted := false } := by
  rcases h with h | h
  · simp [fetchHandler, h]
  · by_cases hm : req.method = "GET"
    · simp [fetchHandler, hm, h]
    · simp [fetchHandler, hm]

/-- Witness for C4 at a concrete POST request. -/
theorem fetch_pass_through_witness :
    fetchHandler appOrigin (fun _ => some okHtmlResponse)
      [(CACHE_NAME, [("./api/upload", okHtmlResponse)])] reqPost =
      { result := FetchResult.passThrough
        storageAfter := [(CACHE_NAME, [("./api/upload", okHtmlResponse)])]
        networkAttempted := false } :=
  fetch_pass_through appOrigin (fun _ => some okHtmlResponse)
    [(CACHE_NAME, [("./api/upload", okHtmlResponse)])] reqPost (Or.inl (by decide))

/-- C5: the write-through population stores only status-200 snapshots: on
a cache miss whose network fetch completes with a non-200 status, nothing
is stored (the cache storage is unchanged) and the live network response
is still returned to the caller. -/
theorem fetch_no_store_below_success (selfOrigin : String)
    (net : Request → Option Response) (s : CacheStorage) (req : Request) (nr : Response)
    (hm : req.method = "GET") (ho : req.origin = selfOrigin)
    (hmiss : storageMatch s req.url = none) (hnet : net req = some nr)
    (hstatus : nr.status ≠ 200) :
    fetchHandler selfOrigin net s req =
      { result := FetchResult.respond nr, storageAfter := s, networkAttempted := true } := by
  simp [fetchHandler, hm, ho, hmiss, hnet, hstatus]

/-- Witness for C5 at a concrete 404 network response. -/
theorem fetch_no_store_below_success_witness :
    fetchHandler appOrigin (fun _ => some notFoundResponse) [] reqImage =
      { result := FetchResult.respond notFoundResponse
        storageAfter := []
        networkAttempted := true } :=
  fetch_no_store_below_success appOrigin (fun _ => some notFoundResponse) [] reqImage
    notFoundResponse rfl rfl rfl rfl (by decide)

/-- C3: on a cache miss whose network fetch fails with a network error,
a document-destination request is answered with the cached record for
`./index.html` (the application root document), and every other request
is answered with the synthetic offline response, whose status is 503 and
whose content type is plain text; in both branches the handler responds,
so the network error does not propagate to the requester. -/
theorem fetch_offline_fallback (selfOrigin : String) (net : Request → Option Response)
    (s : CacheStorage) (req : Request)
    (hm : req.method = "GET") (ho : req.origin = selfOrigin)
    (hmiss : storageMatch s req.url = none) (hnet : net req = none) :
    (∀ shell, req.destination = "document" → storageMatch s "./index.html" = some shell →
      fetchHandler selfOrigin net s req =
        { result := FetchResult.respond shell, storageAfter := s, networkAttempted := true }) ∧
    (req.destination ≠ "document" →
      fetchHandler selfOrigin net s req =
        { result := FetchResult.respond offlineResponse, storageAfter := s,
          networkAttempted := true }) ∧
    offlineResponse.status = 503 ∧ offlineResponse.contentType = "text/plain" := by
  refine ⟨?_, ?_, rfl, rfl⟩
  · intro shell hdoc hshell
    simp [fetchHandler, hm, ho, hmiss, hnet, hdoc, hshell]
  · intro hdoc
    simp [fetchHandler, hm, ho, hmiss, hnet, hdoc]

/-- Witness for C3: a concrete offline document request answered from the
cached root document, and a concrete offline image request answered with
the synthetic 503 response. -/
theorem fetch_offline_fallback_witness :
    fetchHandler appOrigin (fun _ => none)
      [(CACHE_NAME, [("./index.html", okHtmlResponse)])] reqDoc =
      { result := FetchResult.respond okHtmlResponse
        storageAfter := [(CACHE_NAME, [("./index.html", okHtmlResponse)])]
        networkAttempted := true } ∧
    fetchHandler appOrigin (fun _ => none) [] reqImage =
      { result := FetchResult.respond offlineResponse
        storageAfter := []
        networkAttempted := true } :=
  ⟨(fetch_offline_fallback appOrigin (fun _ => none)
      [(CACHE_NAME, [("./index.html", okHtmlResponse)])] reqDoc
      rfl rfl (by decide) rfl).1 okHtmlResponse rfl (by decide),
   (fetch_offline_fallback appOrigin (fun _ => none) [] reqImage
      rfl rfl rfl rfl).2.1 (by decide)⟩

/-- Counterexample for C2: on the real manifest, when entry number 3
(`./style.css`) fails with a network error and every other entry
succeeds, installation still completes successfully, but entries number
1, 2, 4 and 5 are NOT retrievable from the new Cache Generation — the
batch `cache.addAll` is atomic, so a single failing entry leaves the
generation without any of the entries. -/
theorem install_single_failure_counterexample :
    (installHandler netFailingOnStyle []).installSucceeded = true ∧
    storageMatch (installHandler netFailingOnStyle []).storageAfter "./" = none ∧
    storageMatch (installHandler netFailingOnStyle []).storageAfter "./index.html" = none ∧
    storageMatch (installHandler netFailingOnStyle []).storageAfter "./app.js" = none ∧
    storageMatch (installHandler netFailingOnStyle []).storageAfter "./manifest.json" = none := by
  decide

/-- C2 (amended): failure to fetch an individual manifest entry does not
abort installation — the install event still settles successfully — but
the population is not kept per-entry: `cache.addAll` is an atomic batch,
so whenever any entry fails, the new Cache Generation is left exactly as
it was opened (empty on a fresh install), and no manifest entry becomes
retrievable from it. -/
theorem install_survives_entry_failure (net : String → Option Response)
    (s : CacheStorage)
    (hfail : ASSETS_TO_CACHE.mapM (fetchForAddAll net) = none) :
    (installHandler net s).installSucceeded = true ∧
    (installHandler net s).storageAfter =
      storageSet s CACHE_NAME (storageOpen s CACHE_NAME) := by
  refine ⟨rfl, ?_⟩
  show storageSet s CACHE_NAME
      (cacheAddAll net (storageOpen s CACHE_NAME) ASSETS_TO_CACHE).1 =
    storageSet s CACHE_NAME (storageOpen s CACHE_NAME)
  unfold cacheAddAll
  rw [hfail]

/-- Witness for C2 (amended) at the concrete failing network. -/
theorem install_survives_entry_failure_witness :
    (installHandler netFailingOnStyle []).installSucceeded = true ∧
    (installHandler netFailingOnStyle []).storageAfter =
      storageSet [] CACHE_NAME (storageOpen [] CACHE_NAME) :=
  install_survives_entry_failure netFailingOnStyle [] (by decide)

/-- Auxiliary: searching with a predicate after filtering by the same
predicate finds the same first element. -/
theorem find_filter_self {α : Type} (p : α → Bool) (l : List α) :
    (l.filter p).find? p = l.find? p := by
  induction l with
  | nil => rfl
  | cons a t ih =>
    by_cases h : p a = true
    · simp [List.filter, List.find?, h]
    · simp [List.filter, List.find?, h, ih]

/-- C6: after the activate handler runs, every Cache Generation named
differently from the current `CACHE_NAME` is gone (its lookup yields
nothing, so zero of its records remain retrievable), the generation named
`CACHE_NAME` is preserved exactly as it was (deletion is per whole
generation, never per entry), and every generation still present is named
`CACHE_NAME`. -/
theorem activate_whole_generation_eviction (s : CacheStorage) (name : String)
    (h : name ≠ CACHE_NAME) :
    storageGet (activateHandler s) name = none ∧
    storageGet (activateHandler s) CACHE_NAME = storageGet s CACHE_NAME ∧
    ∀ e ∈ activateHandler s, e.1 = CACHE_NAME := by
  refine ⟨?_, ?_, ?_⟩
  · simp only [activateHandler, storageGet, List.find?_filter, Option.map_eq_none']
    rw [List.find?_eq_none]
    intro x _ hx
    simp only [Bool.and_eq_true, decide_eq_true_eq] at hx
    exact h (hx.2.symm.trans hx.1)
  · unfold activateHandler storageGet
    rw [find_filter_self]
  · intro e he
    have := List.mem_filter.mp he
    simpa using this.2

/-- Witness for C6 at a concrete storage holding a stale generation
`simple-pwa-v0` alongside the current one. -/
theorem activate_whole_generation_eviction_witness :
    storageGet (activateHandler
      [("simple-pwa-v0", [("./", okHtmlResponse)]), (CACHE_NAME, [("./app.js", okHtmlResponse)])])
      "simple-pwa-v0" = none ∧
    storageGet (activateHandler
      [("simple-pwa-v0", [("./", okHtmlResponse)]), (CACHE_NAME, [("./app.js", okHtmlResponse)])])
      CACHE_NAME =
      storageGet
        [("simple-pwa-v0", [("./", okHtmlResponse)]), (CACHE_NAME, [("./app.js", okHtmlResponse)])]
        CACHE_NAME ∧
    ∀ e ∈ activateHandler
      [("simple-pwa-v0", [("./", okHtmlResponse)]), (CACHE_NAME, [("./app.js", okHtmlResponse)])],
      e.1 = CACHE_NAME :=
  activate_whole_generation_eviction
    [("simple-pwa-v0", [("./", okHtmlResponse)]), (CACHE_NAME, [("./app.js", okHtmlResponse)])]
    "simple-pwa-v0" (by decide)

/-- Counterexample for C7: with one stale generation `simple-pwa-v0`
present, the activate trace places the call to `clients.claim` strictly
before the deletion of the stale generation settles — the deletion does
not complete before claiming begins, because `clients.claim()` is invoked
synchronously in the handler body while the deletions run inside the
`.then` callback of `caches.keys()`. -/
theorem activate_deletion_after_claim_counterexample :
    activateTrace ["simple-pwa-v0"] =
      [ActEvent.keysRequested, ActEvent.claimCalled, ActEvent.keysResolved,
       ActEvent.cacheDeleted "simple-pwa-v0"] ∧
    ActEvent.cacheDeleted "simple-pwa-v0" ∈ activateTrace ["simple-pwa-v0"] ∧
    eventIndex (activateTrace ["simple-pwa-v0"]) ActEvent.claimCalled <
      eventIndex (activateTrace ["simple-pwa-v0"]) (ActEvent.cacheDeleted "simple-pwa-v0") := by
  decide

/-- C7 (amended): in the activate handler, the claiming of open client
registrations is invoked synchronously in the handler body, and therefore
occurs strictly before every stale-generation deletion settles; the code
does not sequence deletion before claiming. -/
theorem activate_claim_precedes_deletions (existing : List String) (name : String)
    (hmem : ActEvent.cacheDeleted name ∈ activateTrace existing) :
    eventIndex (activateTrace existing) ActEvent.claimCalled <
      eventIndex (activateTrace existing) (ActEvent.cacheDeleted name) := by
  simp only [activateTrace, List.cons_append, List.nil_append, eventIndex]
  simp only [reduceCtorEq, if_neg, if_pos, ite_false, ite_true]
  omega

/-- Witness for C7 (amended) at a concrete stale generation. -/
theorem activate_claim_precedes_deletions_witness :
    eventIndex (activateTrace ["simple-pwa-v0"]) ActEvent.claimCalled <
      eventIndex (activateTrace ["simple-pwa-v0"]) (ActEvent.cacheDeleted "simple-pwa-v0") :=
  activate_claim_precedes_deletions ["simple-pwa-v0"] "simple-pwa-v0" (by decide)

/-- C9: the install handler calls `self.skipWaiting()` unconditionally,
for every network behavior and every prior cache storage, so a newly
installed worker never stays waiting for a SKIP_WAITING message; the
message channel can also trigger it, but is not needed. -/
theorem install_always_calls_skip_waiting (net : String → Option Response)
    (s : CacheStorage) :
    (installHandler net s).skipWaitingCalled = true := rfl

/-- Counterexample for C8: a notification whose `data.url` is the empty
string is not round-tripped verbatim. JavaScript `||` treats the empty
string as falsy, so the click handler delivers the fixed fallback target
instead of the empty string carried by the notification. -/
theorem notification_url_not_verbatim :
    (notificationClick (some { url := some "" })
        [{ id := 0, focusable := true }]).messages =
      [(0, { type := "NOTIFICATION_CLICKED", url := "./?notification=test" })] ∧
    (notificationClick (some { url := some "" })
        [{ id := 0, focusable := true }]).messages ≠
      [(0, { type := "NOTIFICATION_CLICKED", url := "" })] := by
  decide

/-- C8 (amended): on a notification click whose `data.url` is a
non-empty string, exactly one of two outcomes happens: when some
focusable client is open, the first such client is focused and receives
exactly one NOTIFICATION_CLICKED message carrying that url verbatim and
no new window is opened; when no client is open, a new window is opened
on that url and no message is sent. An empty `data.url` instead falls
back to the fixed default target. -/
theorem notification_click_dispatch (u : String) (clients : List NotifClient)
    (hu : u ≠ "") :
    (∀ c, clients.find? (fun c => c.focusable) = some c →
      notificationClick (some { url := some u }) clients =
        { messages := [(c.id, { type := "NOTIFICATION_CLICKED", url := u })]
          focusedClient := some c.id
          openedWindow := none
          closedNotification := true }) ∧
    (clients = [] →
      notificationClick (some { url := some u }) clients =
        { messages := []
          focusedClient := none
          openedWindow := some u
          closedNotification := true }) := by
  constructor
  · intro c hc
    simp [notificationClick, notifTargetUrl, hu, hc]
  · intro hnil
    subst hnil
    simp [notificationClick, notifTargetUrl, hu, List.find?]

/-- Witness for C8 (amended): a click on a notification with
`data.url = "/gallery"` and one open focusable client. -/
theorem notification_click_dispatch_witness :
    notificationClick (some { url := some "/gallery" }) [{ id := 7, focusable := true }] =
      { messages := [(7, { type := "NOTIFICATION_CLICKED", url := "/gallery" })]
        focusedClient := some 7
        openedWindow := none
        closedNotification := true } :=
  (notification_click_dispatch "/gallery" [{ id := 7, focusable := true }]
    (by decide)).1 { id := 7, focusable := true } (by decide)

/-- C10: when the notification carries no `data` object at all, or a
`data` object without a `url` field, the click handler uses the fixed
fallback target `./?notification=test`: the message posted to a focused
client carries it, and the window opened when no focusable client exists
navigates to it. -/
theorem notification_click_fallback_target (data : Option NotifData)
    (clients : List NotifClient)
    (h : data = none ∨ data = some { url := none }) :
    notifTargetUrl data = "./?notification=test" ∧
    (∀ c, clients.find? (fun c => c.focusable) = some c →
      (notificationClick data clients).messages =
        [(c.id, { type := "NOTIFICATION_CLICKED", url := "./?notification=test" })]) ∧
    (clients.find? (fun c => c.focusable) = none →
      (notificationClick data clients).openedWindow = some "./?notification=test") := by
  have htu : notifTargetUrl data = "./?notification=test" := by
    rcases h with h | h <;> subst h <;> rfl
  refine ⟨htu, ?_, ?_⟩
  · intro c hc
    simp [notificationClick, htu, hc]
  · intro hnone
    simp [notificationClick, htu, hnone]

/-- Witness for C10: a click on a notification without any data, with one
open focusable client. -/
theorem notification_click_fallback_target_witness :
    (notificationClick none [{ id := 3, focusable := true }]).messages =
      [(3, { type := "NOTIFICATION_CLICKED", url := "./?notification=test" })] :=
  (notification_click_fallback_target none [{ id := 3, focusable := true }]
    (Or.inl rfl)).2.1 { id := 3, focusable := true } (by decide)
